import Mathlib

/-!
# Verification of the Idle-Usage-Checker monitor

A shallow embedding of `src/idle_usage_checker.py` (class `Idle_Usage_Checker`
and the module-level `main`), together with proofs of the behavioural
properties claimed for it.

Modelling conventions:
* Configuration constants (`config["RESOURCE_CHECKS"]`, `config["MAX_RESOURCE_CHECKS"]`,
  `config["CPU_THRESHOLD"]`, `config["MEMORY_THRESHOLD"]`, `config["SLEEP_MODE_LENGTH"]`,
  `config["RUNNING_DURATION"]`, `config["MAX_PASSED_CHECKS"]`, ...) come from the
  `config` module; they are passed as explicit parameters.  Python integers are
  modelled by `Int`; the floating-point percentages returned by
  `psutil.cpu_percent` / `psutil.virtual_memory().percent` are modelled by `ℚ`
  (only order comparisons against thresholds are performed on them).
* The stream of resource samples observed by `update_resources` is an oracle
  `samples : Nat → ℚ × ℚ` (CPU%, memory%), indexed by the value of
  `total_checks` at the moment of the call.
* `sleep` calls only consume time; they are not modelled except where the code
  adds to `config["ELAPSED_TIME"]`.
-/

namespace IdleUsageChecker

/-! ## Resource-utilization hysteresis (`Idle_Usage_Checker.resource_utilization`) -/

/-- The "busy" vote cast by one loop iteration of `resource_utilization`:
`self.cpu >= config["CPU_THRESHOLD"] or self.memory >= config["MEMORY_THRESHOLD"]`. -/
def busyVote (cpuThreshold memoryThreshold : ℚ) (sample : ℚ × ℚ) : Bool :=
  decide (cpuThreshold ≤ sample.1) || decide (memoryThreshold ≤ sample.2)

/-- The `while` loop of `resource_utilization`: starting from the given
`resource_counter` and `total_checks`, it runs while
`resource_counter < RESOURCE_CHECKS and resource_counter > -RESOURCE_CHECKS
and total_checks < MAX_RESOURCE_CHECKS`, each iteration sampling once,
incrementing the counter on a busy vote and decrementing it otherwise, and
incrementing `total_checks` either way.  Returns the final
`(resource_counter, total_checks)`. -/
def ruLoop (cpuThreshold memoryThreshold : ℚ) (RESOURCE_CHECKS MAX_RESOURCE_CHECKS : Int)
    (samples : Nat → ℚ × ℚ) (resource_counter : Int) (total_checks : Nat) : Int × Nat :=
  if resource_counter < RESOURCE_CHECKS ∧ -RESOURCE_CHECKS < resource_counter ∧
      (total_checks : Int) < MAX_RESOURCE_CHECKS then
    ruLoop cpuThreshold memoryThreshold RESOURCE_CHECKS MAX_RESOURCE_CHECKS samples
      (if busyVote cpuThreshold memoryThreshold (samples total_checks)
        then resource_counter + 1 else resource_counter - 1)
      (total_checks + 1)
  else
    (resource_counter, total_checks)
termination_by (MAX_RESOURCE_CHECKS - total_checks).toNat
decreasing_by omega

/-- `Idle_Usage_Checker.resource_utilization`: run the sampling loop from
`resource_counter = 0`, `total_checks = 0`, then apply the exit policy
(`if counter >= RC → True; elif counter <= -RC → False;
elif total >= MAX → False; else → False`). -/
def resource_utilization (cpuThreshold memoryThreshold : ℚ)
    (RESOURCE_CHECKS MAX_RESOURCE_CHECKS : Int) (samples : Nat → ℚ × ℚ) : Bool :=
  match ruLoop cpuThreshold memoryThreshold RESOURCE_CHECKS MAX_RESOURCE_CHECKS samples 0 0 with
  | (resource_counter, total_checks) =>
    if RESOURCE_CHECKS ≤ resource_counter then true
    else if resource_counter ≤ -RESOURCE_CHECKS then false
    else if MAX_RESOURCE_CHECKS ≤ (total_checks : Int) then false
    else false

/-- The counter trajectory induced by a vote sequence: value of
`resource_counter` after `k` votes have been cast. -/
def cntAt (vote : Nat → Bool) : Nat → Int
  | 0 => 0
  | k + 1 => cntAt vote k + (if vote k then 1 else -1)

/-- The loop guard of `resource_utilization`, as a predicate on the state. -/
abbrev ruGuard (RESOURCE_CHECKS MAX_RESOURCE_CHECKS : Int)
    (resource_counter : Int) (total_checks : Nat) : Prop :=
  resource_counter < RESOURCE_CHECKS ∧ -RESOURCE_CHECKS < resource_counter ∧
    (total_checks : Int) < MAX_RESOURCE_CHECKS

section RuLemmas

variable (cpuT memT : ℚ) (RC MAX : Int) (samples : Nat → ℚ × ℚ)

/-- One unfolding of the sampling loop when the guard holds. -/
lemma ruLoop_step (c : Int) (t : Nat) (h : ruGuard RC MAX c t) :
    ruLoop cpuT memT RC MAX samples c t =
      ruLoop cpuT memT RC MAX samples
        (if busyVote cpuT memT (samples t) then c + 1 else c - 1) (t + 1) := by
  rw [ruLoop]
  simp [h]

/-- The sampling loop returns its state unchanged when the guard fails. -/
lemma ruLoop_stop (c : Int) (t : Nat) (h : ¬ ruGuard RC MAX c t) :
    ruLoop cpuT memT RC MAX samples c t = (c, t) := by
  rw [ruLoop]
  simp only [if_neg h]

/-- After any prefix of iterations in which the guard held throughout, the
loop state is `(cntAt vote K, K)`. -/
lemma ruLoop_run (K : Nat)
    (h : ∀ j < K, ruGuard RC MAX (cntAt (fun j => busyVote cpuT memT (samples j)) j) j) :
    ruLoop cpuT memT RC MAX samples 0 0 =
      ruLoop cpuT memT RC MAX samples
        (cntAt (fun j => busyVote cpuT memT (samples j)) K) K := by
  induction K with
  | zero => rfl
  | succ m ih =>
    rw [ih (fun j hj => h j (Nat.lt_succ_of_lt hj)),
      ruLoop_step cpuT memT RC MAX samples _ m (h m (Nat.lt_succ_self m))]
    congr 1
    simp only [cntAt]
    split <;> omega

/-- Characterization of the sampling loop's final state: if the guard holds
strictly before index `k` and fails at `k`, the loop started at `(0, 0)`
stops exactly at `(cntAt vote k, k)`. -/
lemma ruLoop_char (k : Nat)
    (hstop : ¬ ruGuard RC MAX (cntAt (fun j => busyVote cpuT memT (samples j)) k) k)
    (hrun : ∀ j < k, ruGuard RC MAX (cntAt (fun j => busyVote cpuT memT (samples j)) j) j) :
    ruLoop cpuT memT RC MAX samples 0 0 =
      (cntAt (fun j => busyVote cpuT memT (samples j)) k, k) := by
  rw [ruLoop_run cpuT memT RC MAX samples k hrun,
    ruLoop_stop cpuT memT RC MAX samples _ k hstop]

/-- When `MAX_RESOURCE_CHECKS ≥ 0` there is a first index at which the loop
guard fails. -/
lemma exists_first_stop (hM : 0 ≤ MAX) :
    ∃ k : Nat,
      (¬ ruGuard RC MAX (cntAt (fun j => busyVote cpuT memT (samples j)) k) k) ∧
      ∀ j < k, ruGuard RC MAX (cntAt (fun j => busyVote cpuT memT (samples j)) j) j := by
  have hex : ∃ k : Nat,
      ¬ ruGuard RC MAX (cntAt (fun j => busyVote cpuT memT (samples j)) k) k := by
    refine ⟨MAX.toNat, fun hg => ?_⟩
    have := hg.2.2
    omega
  refine ⟨Nat.find hex, Nat.find_spec hex, fun j hj => ?_⟩
  have := Nat.find_min hex hj
  exact of_not_not this

/-- A run in which the guard held at every index `< K` has `K ≤ MAX`. -/
lemma first_stop_le (K : Nat) (hM : 0 ≤ MAX)
    (h : ∀ j < K, ruGuard RC MAX (cntAt (fun j => busyVote cpuT memT (samples j)) j) j) :
    (K : Int) ≤ MAX := by
  cases K with
  | zero => exact_mod_cast hM
  | succ m =>
    have := (h m (Nat.lt_succ_self m)).2.2
    push_cast
    omega

end RuLemmas

/-- The exit policy of `resource_utilization`, expressed on a known final
loop state. -/
lemma resource_utilization_eq (cpuT memT : ℚ) (RC MAX : Int) (samples : Nat → ℚ × ℚ)
    (c : Int) (t : Nat) (h : ruLoop cpuT memT RC MAX samples 0 0 = (c, t)) :
    resource_utilization cpuT memT RC MAX samples =
      if RC ≤ c then true
      else if c ≤ -RC then false
      else if MAX ≤ (t : Int) then false
      else false := by
  rw [resource_utilization, h]

/-- Specification-side predicate (claim C1, quoted from the spec): some prefix
of the vote sequence drives `resource_counter` to `+RESOURCE_CHECKS` while the
counter stayed strictly between `-RESOURCE_CHECKS` and `+RESOURCE_CHECKS` at
every earlier point, and the deciding vote is cast no later than vote number
`MAX_RESOURCE_CHECKS` (i.e. it is cast while `total_checks` is still below
`MAX_RESOURCE_CHECKS`). -/
def busyPrefixWins (cpuThreshold memoryThreshold : ℚ)
    (RESOURCE_CHECKS MAX_RESOURCE_CHECKS : Int) (samples : Nat → ℚ × ℚ) : Prop :=
  ∃ k : Nat, (k : Int) ≤ MAX_RESOURCE_CHECKS ∧
    RESOURCE_CHECKS ≤ cntAt (fun j => busyVote cpuThreshold memoryThreshold (samples j)) k ∧
    ∀ j < k,
      -RESOURCE_CHECKS < cntAt (fun j => busyVote cpuThreshold memoryThreshold (samples j)) j ∧
      cntAt (fun j => busyVote cpuThreshold memoryThreshold (samples j)) j < RESOURCE_CHECKS

/-- Claim C1: for every finite sequence of busy/idle votes (samples compared
against `CPU_THRESHOLD` and `MEMORY_THRESHOLD`), `resource_utilization`
returns `true` if and only if some prefix of the vote sequence drives
`resource_counter` (incremented on a busy vote, decremented on an idle vote,
starting at 0) to `+RESOURCE_CHECKS` before it reaches `-RESOURCE_CHECKS` and
before `total_checks` reaches `MAX_RESOURCE_CHECKS` (read as: the deciding
vote is sampled while the guard `total_checks < MAX_RESOURCE_CHECKS` still
allows it); in every other case it returns `false`. -/
theorem resource_utilization_iff_busyPrefixWins (cpuT memT : ℚ) (RC MAX : Int)
    (samples : Nat → ℚ × ℚ) (hM : 0 ≤ MAX) :
    resource_utilization cpuT memT RC MAX samples = true ↔
      busyPrefixWins cpuT memT RC MAX samples := by
  obtain ⟨K, hstopK, hrunK⟩ := exists_first_stop cpuT memT RC MAX samples hM
  rw [resource_utilization_eq cpuT memT RC MAX samples _ _
    (ruLoop_char cpuT memT RC MAX samples K hstopK hrunK)]
  unfold busyPrefixWins
  constructor
  · intro htrue
    have h1 : RC ≤ cntAt (fun j => busyVote cpuT memT (samples j)) K := by
      by_contra h1
      rw [if_neg h1] at htrue
      split_ifs at htrue
    exact ⟨K, first_stop_le cpuT memT RC MAX samples K hM hrunK, h1,
      fun j hj => ⟨(hrunK j hj).2.1, (hrunK j hj).1⟩⟩
  · rintro ⟨k, hkM, hkRC, hbounds⟩
    have hKk : K = k := by
      rcases Nat.lt_trichotomy K k with h | h | h
      · refine absurd ?_ hstopK
        refine ⟨(hbounds K h).2, (hbounds K h).1, ?_⟩
        have hKklt : (K : Int) < (k : Int) := by exact_mod_cast h
        omega
      · exact h
      · have := (hrunK k h).1
        omega
    subst hKk
    rw [if_pos hkRC]

/-- Claim C1 witness: configuration with thresholds 50/50, `RESOURCE_CHECKS = 1`,
`MAX_RESOURCE_CHECKS = 1`, and a constantly-busy sample stream. -/
theorem resource_utilization_iff_busyPrefixWins_witness :
    (0 : Int) ≤ 1 ∧
      (resource_utilization 50 50 1 1 (fun _ => (60, 0)) = true ↔
        busyPrefixWins 50 50 1 1 (fun _ => (60, 0))) :=
  ⟨by norm_num,
    resource_utilization_iff_busyPrefixWins 50 50 1 1 (fun _ => (60, 0)) (by norm_num)⟩

/-- Claim C2: for every configuration with `MAX_RESOURCE_CHECKS ≥ 0` and every
vote sequence, `resource_utilization` performs at most `MAX_RESOURCE_CHECKS`
samples before returning: the final value of `total_checks` (which counts
exactly one `update_resources` call per loop iteration) is at most
`MAX_RESOURCE_CHECKS`.  Termination itself is witnessed by `ruLoop` being a
total function, with `MAX_RESOURCE_CHECKS - total_checks` decreasing on every
iteration. -/
theorem resource_utilization_samples_le_max (cpuT memT : ℚ) (RC MAX : Int)
    (samples : Nat → ℚ × ℚ) (hM : 0 ≤ MAX) :
    ((ruLoop cpuT memT RC MAX samples 0 0).2 : Int) ≤ MAX := by
  obtain ⟨K, hstopK, hrunK⟩ := exists_first_stop cpuT memT RC MAX samples hM
  rw [ruLoop_char cpuT memT RC MAX samples K hstopK hrunK]
  exact first_stop_le cpuT memT RC MAX samples K hM hrunK

/-- Claim C2 witness: a constantly-idle sample stream with
`MAX_RESOURCE_CHECKS = 10` performs at most 10 samples. -/
theorem resource_utilization_samples_le_max_witness :
    (0 : Int) ≤ 10 ∧ ((ruLoop 50 50 3 10 (fun _ => (0, 0)) 0 0).2 : Int) ≤ 10 :=
  ⟨by norm_num, resource_utilization_samples_le_max 50 50 3 10 (fun _ => (0, 0)) (by norm_num)⟩

/-- Claim C9: for every configuration with `RESOURCE_CHECKS ≥ 1` and
`MAX_RESOURCE_CHECKS ≥ 1`, when the sampling loop of `resource_utilization`
exits, at least one of the three defined exit conditions
(`resource_counter ≥ RESOURCE_CHECKS`, `resource_counter ≤ -RESOURCE_CHECKS`,
`total_checks ≥ MAX_RESOURCE_CHECKS`) holds, so the final defensive
else-branch of the exit policy is unreachable. -/
theorem resource_utilization_exit_policy_complete (cpuT memT : ℚ) (RC MAX : Int)
    (samples : Nat → ℚ × ℚ) (_hRC : 1 ≤ RC) (hMAX : 1 ≤ MAX) :
    RC ≤ (ruLoop cpuT memT RC MAX samples 0 0).1 ∨
    (ruLoop cpuT memT RC MAX samples 0 0).1 ≤ -RC ∨
    MAX ≤ ((ruLoop cpuT memT RC MAX samples 0 0).2 : Int) := by
  obtain ⟨K, hstopK, hrunK⟩ := exists_first_stop cpuT memT RC MAX samples (by omega)
  rw [ruLoop_char cpuT memT RC MAX samples K hstopK hrunK]
  dsimp only
  omega

/-- Claim C9 witness: thresholds 50/50, `RESOURCE_CHECKS = 2`,
`MAX_RESOURCE_CHECKS = 10`. -/
theorem resource_utilization_exit_policy_complete_witness :
    (1 : Int) ≤ 2 ∧ (1 : Int) ≤ 10 ∧
      (2 ≤ (ruLoop 50 50 2 10 (fun _ => (60, 0)) 0 0).1 ∨
        (ruLoop 50 50 2 10 (fun _ => (60, 0)) 0 0).1 ≤ -2 ∨
        10 ≤ ((ruLoop 50 50 2 10 (fun _ => (60, 0)) 0 0).2 : Int)) :=
  ⟨by norm_num, by norm_num,
    resource_utilization_exit_policy_complete 50 50 2 10 (fun _ => (60, 0))
      (by norm_num) (by norm_num)⟩

/-! ## The monitor loop (`Idle_Usage_Checker.begin`)

The loop's interaction with the outside world is abstracted by two oracle
streams indexed by the iteration number: `p i` is what `self.presence()`
returns in iteration `i`, and `b i` is what `self.resource_utilization()`
returns in iteration `i`.  Side effects relevant to the claims are recorded
as a list of `Action`s. -/

/-- Externally visible side effects of a run: creating the boto3 SNS client,
calling `client.publish`, and `sys.exit()` (whose argument defaults to `None`,
i.e. exit code 0). -/
inductive Action
  | createClient
  | publish
  | exitProgram (code : Nat)
  deriving DecidableEq, Repr

/-- `Idle_Usage_Checker.close_program`: logs and calls `sys.exit()`, which
terminates the process with exit code 0. -/
def close_program : List Action := [Action.exitProgram 0]

/-- `Idle_Usage_Checker.send_notification`: unless `self.debug` is set,
creates an SNS client and publishes the notification message; in either case
it then calls `close_program`. -/
def send_notification (debug : Bool) : List Action :=
  (if debug then [] else [Action.createClient, Action.publish]) ++ close_program

/-- Mutable state of the monitor loop: `config["ELAPSED_TIME"]` and the local
`total_passed_resource_checks` of `begin`. -/
structure LoopState where
  elapsed : Int
  passed : Nat
  deriving DecidableEq, Repr

/-- Result of one iteration body of `begin` (given that the `while` guard
held): either the loop continues with an updated state (after `sleep_mode`),
or it stops because the passed-check cap was reached, or it stops on a busy
verdict (`send_notification`). -/
inductive IterResult
  | cont (s : LoopState)
  | stopMaxPassed (s : LoopState)
  | stopBusy (s : LoopState)
  deriving DecidableEq, Repr

/-- One iteration body of `begin`: check presence; if present, reset
`total_passed_resource_checks` and sleep; if absent and busy, stop for
notification; if absent and not busy, increment the counter, stopping
immediately (before any sleep) when it reaches `MAX_PASSED_CHECKS`. -/
def beginIter (SLEEP_MODE_LENGTH MAX_PASSED_CHECKS : Int) (presence busy : Bool)
    (s : LoopState) : IterResult :=
  if presence then
    IterResult.cont ⟨s.elapsed + SLEEP_MODE_LENGTH, 0⟩
  else if busy then
    IterResult.stopBusy s
  else if MAX_PASSED_CHECKS ≤ ((s.passed + 1 : Nat) : Int) then
    IterResult.stopMaxPassed ⟨s.elapsed, s.passed + 1⟩
  else
    IterResult.cont ⟨s.elapsed + SLEEP_MODE_LENGTH, s.passed + 1⟩

/-- Final outcome of the monitor loop: the `while` guard failed
(`close_program("Maximum running duration reached.")`), the passed-check cap
was reached, or a notification was sent in iteration `iter`. -/
inductive Outcome
  | durationReached (s : LoopState)
  | maxPassed (s : LoopState)
  | notified (iter : Nat) (s : LoopState)
  deriving DecidableEq, Repr

/-- `Idle_Usage_Checker.begin`, run for at most `fuel` iterations: returns the
side effects performed and `some` outcome, or `none` if `fuel` ran out before
the loop finished.  `i` is the index of the next iteration (used to query the
oracles). -/
def beginLoop (debug : Bool) (SLEEP_MODE_LENGTH RUNNING_DURATION MAX_PASSED_CHECKS : Int)
    (p b : Nat → Bool) : Nat → LoopState → Nat → List Action × Option Outcome
  | fuel, s, i =>
    if RUNNING_DURATION < s.elapsed then
      (close_program, some (Outcome.durationReached s))
    else
      match fuel with
      | 0 => ([], none)
      | fuel + 1 =>
        match beginIter SLEEP_MODE_LENGTH MAX_PASSED_CHECKS (p i) (b i) s with
        | IterResult.cont s' =>
          beginLoop debug SLEEP_MODE_LENGTH RUNNING_DURATION MAX_PASSED_CHECKS p b fuel s' (i + 1)
        | IterResult.stopMaxPassed s' => (close_program, some (Outcome.maxPassed s'))
        | IterResult.stopBusy s' => (send_notification debug, some (Outcome.notified i s'))

/-- A continuing iteration always adds `SLEEP_MODE_LENGTH` to the elapsed
time (both continuing branches of `begin` end in `sleep_mode()`). -/
lemma beginIter_cont_elapsed (SLEEP MAXP : Int) (pres busy : Bool) (s s' : LoopState)
    (h : beginIter SLEEP MAXP pres busy s = IterResult.cont s') :
    s'.elapsed = s.elapsed + SLEEP := by
  unfold beginIter at h
  split_ifs at h <;> simp_all <;> simp [← h]

/-- The notification branch is taken exactly when `presence()` returned
`false` and `resource_utilization()` returned `true`, and it leaves the state
unchanged. -/
lemma beginIter_stopBusy (SLEEP MAXP : Int) (pres busy : Bool) (s s' : LoopState)
    (h : beginIter SLEEP MAXP pres busy s = IterResult.stopBusy s') :
    pres = false ∧ busy = true ∧ s' = s := by
  unfold beginIter at h
  split_ifs at h <;> simp_all

/-- Claim C3: in every iteration of the monitor loop, the passed-check
counter is reset to 0 whenever the Presence Probe returns true; it is
incremented by exactly 1 only in iterations where the Presence Probe returned
false and the hysteresis procedure returned false (the busy branch leaves it
unchanged); and as soon as the incremented counter reaches
`MAX_PASSED_CHECKS` the loop terminates at once, with no further sleep (the
elapsed time is unchanged in the terminating state). -/
theorem begin_passed_checks_policy (SLEEP RD MAXP : Int) (s : LoopState) :
    (∀ busy : Bool,
      beginIter SLEEP MAXP true busy s = IterResult.cont ⟨s.elapsed + SLEEP, 0⟩) ∧
    beginIter SLEEP MAXP false true s = IterResult.stopBusy s ∧
    beginIter SLEEP MAXP false false s =
      (if MAXP ≤ ((s.passed + 1 : Nat) : Int) then
        IterResult.stopMaxPassed ⟨s.elapsed, s.passed + 1⟩
      else
        IterResult.cont ⟨s.elapsed + SLEEP, s.passed + 1⟩) ∧
    (∀ (debug : Bool) (p b : Nat → Bool) (fuel i : Nat),
      s.elapsed ≤ RD → p i = false → b i = false →
      MAXP ≤ ((s.passed + 1 : Nat) : Int) →
      beginLoop debug SLEEP RD MAXP p b (fuel + 1) s i =
        ([Action.exitProgram 0], some (Outcome.maxPassed ⟨s.elapsed, s.passed + 1⟩))) := by
  refine ⟨fun busy => by simp [beginIter], by simp [beginIter], rfl, ?_⟩
  intro debug p b fuel i hRD hp hb hmax
  rw [beginLoop, if_neg (not_lt.2 hRD)]
  have hiter : beginIter SLEEP MAXP (p i) (b i) s =
      IterResult.stopMaxPassed ⟨s.elapsed, s.passed + 1⟩ := by
    rw [beginIter]
    simp only [hp, hb, Bool.false_eq_true, if_false]
    rw [if_pos hmax]
  simp only [hiter]
  rfl

/-- Claim C3 witness: a concrete iteration with the counter one step below
the cap, and a concrete loop run that stops via the cap without sleeping. -/
theorem begin_passed_checks_policy_witness :
    beginIter 5 3 true false ⟨7, 2⟩ = IterResult.cont ⟨12, 0⟩ ∧
    beginLoop false 5 30 3 (fun _ => false) (fun _ => false) 1 ⟨7, 2⟩ 0 =
      ([Action.exitProgram 0], some (Outcome.maxPassed ⟨7, 3⟩)) :=
  ⟨(begin_passed_checks_policy 5 30 3 ⟨7, 2⟩).1 false,
    (begin_passed_checks_policy 5 30 3 ⟨7, 2⟩).2.2.2 false (fun _ => false) (fun _ => false)
      0 0 (by norm_num) rfl rfl (by norm_num)⟩

/-- Fuel `(RUNNING_DURATION + 1 - elapsed).toNat` suffices for the monitor
loop to reach an outcome, because every continuing iteration adds
`SLEEP_MODE_LENGTH ≥ 1` to the elapsed time. -/
lemma beginLoop_terminates (debug : Bool) (SLEEP RD MAXP : Int) (p b : Nat → Bool)
    (hS : 0 < SLEEP) :
    ∀ (fuel : Nat) (s : LoopState) (i : Nat), (RD + 1 - s.elapsed).toNat ≤ fuel →
      ∃ out, (beginLoop debug SLEEP RD MAXP p b fuel s i).2 = some out := by
  intro fuel
  induction fuel with
  | zero =>
    intro s i hfuel
    rw [beginLoop, if_pos (by omega : RD < s.elapsed)]
    exact ⟨_, rfl⟩
  | succ n ih =>
    intro s i hfuel
    rw [beginLoop]
    split_ifs with hRD
    · exact ⟨_, rfl⟩
    · rcases hiter : beginIter SLEEP MAXP (p i) (b i) s with s' | s' | s'
      · simp only [hiter]
        have he := beginIter_cont_elapsed SLEEP MAXP (p i) (b i) s s' hiter
        exact ih s' (i + 1) (by omega)
      · simp only [hiter]
        exact ⟨_, rfl⟩
      · simp only [hiter]
        exact ⟨_, rfl⟩

/-- Claim C4: for every configuration with positive `SLEEP_MODE_LENGTH`,
finite `RUNNING_DURATION`, positive `MAX_PASSED_CHECKS`, and every sequence of
probe outcomes, the monitor loop reaches an outcome within the explicit
iteration bound `(RUNNING_DURATION + 1 - elapsed).toNat`; the outcome is one
of `durationReached`, `maxPassed`, or `notified`, so one of the three exit
events always occurs. -/
theorem begin_terminates (debug : Bool) (SLEEP RD MAXP : Int)
    (hS : 0 < SLEEP) (_hMP : 0 < MAXP) (p b : Nat → Bool) (s : LoopState) (i : Nat) :
    ∃ out : Outcome,
      (beginLoop debug SLEEP RD MAXP p b ((RD + 1 - s.elapsed).toNat) s i).2 = some out :=
  beginLoop_terminates debug SLEEP RD MAXP p b hS _ s i le_rfl

/-- Claim C4 witness: `SLEEP_MODE_LENGTH = 5`, `RUNNING_DURATION = 30`,
`MAX_PASSED_CHECKS = 3`, oscillating presence, never busy. -/
theorem begin_terminates_witness :
    ∃ out : Outcome,
      (beginLoop false 5 30 3 (fun j => j % 2 == 0) (fun _ => false)
        ((30 + 1 - (0 : Int)).toNat) ⟨0, 0⟩ 0).2 = some out :=
  begin_terminates false 5 30 3 (by norm_num) (by norm_num)
    (fun j => j % 2 == 0) (fun _ => false) ⟨0, 0⟩ 0

/-- Claim C5: in every run of the monitor loop the Notifier's publish call is
made at most once, and when it is made, the run's outcome is `notified j s`
for an iteration `j` in which the Presence Probe returned false and the
hysteresis procedure returned true, with the debug flag unset; the `notified`
outcome is terminal, so the loop is never re-entered afterwards. -/
theorem notifier_at_most_once (debug : Bool) (SLEEP RD MAXP : Int) (p b : Nat → Bool)
    (fuel : Nat) (s : LoopState) (i : Nat) :
    (beginLoop debug SLEEP RD MAXP p b fuel s i).1.count Action.publish ≤ 1 ∧
    (Action.publish ∈ (beginLoop debug SLEEP RD MAXP p b fuel s i).1 →
      debug = false ∧ ∃ j s',
        (beginLoop debug SLEEP RD MAXP p b fuel s i).2 = some (Outcome.notified j s') ∧
        p j = false ∧ b j = true) := by
  induction fuel generalizing s i with
  | zero =>
    rw [beginLoop]
    split_ifs with h
    · exact ⟨show close_program.count Action.publish ≤ 1 by decide,
        fun hmem => absurd hmem (show Action.publish ∉ close_program by decide)⟩
    · exact ⟨show List.count Action.publish [] ≤ 1 by decide,
        fun hmem => absurd hmem (show Action.publish ∉ ([] : List Action) by decide)⟩
  | succ n ih =>
    rw [beginLoop]
    split_ifs with h
    · exact ⟨show close_program.count Action.publish ≤ 1 by decide,
        fun hmem => absurd hmem (show Action.publish ∉ close_program by decide)⟩
    · rcases hiter : beginIter SLEEP MAXP (p i) (b i) s with s' | s' | s'
      · simp only [hiter]
        exact ih s' (i + 1)
      · simp only [hiter]
        exact ⟨show close_program.count Action.publish ≤ 1 by decide,
          fun hmem => absurd hmem (show Action.publish ∉ close_program by decide)⟩
      · simp only [hiter]
        obtain ⟨hp, hb, hs⟩ := beginIter_stopBusy SLEEP MAXP (p i) (b i) s s' hiter
        cases debug
        · exact ⟨show (send_notification false).count Action.publish ≤ 1 by decide,
            fun _ => ⟨rfl, i, s', rfl, hp, hb⟩⟩
        · exact ⟨show (send_notification true).count Action.publish ≤ 1 by decide,
            fun hmem =>
              absurd hmem (show Action.publish ∉ send_notification true by decide)⟩

/-- Claim C5 witness: a run that publishes on its first iteration. -/
theorem notifier_at_most_once_witness :
    (beginLoop false 5 30 3 (fun _ => false) (fun _ => true) 1 ⟨0, 0⟩ 0).1.count
        Action.publish ≤ 1 ∧
    (false = false ∧ ∃ j s',
      (beginLoop false 5 30 3 (fun _ => false) (fun _ => true) 1 ⟨0, 0⟩ 0).2 =
        some (Outcome.notified j s') ∧
      (fun _ : Nat => false) j = false ∧ (fun _ : Nat => true) j = true) :=
  ⟨(notifier_at_most_once false 5 30 3 (fun _ => false) (fun _ => true) 1 ⟨0, 0⟩ 0).1,
    (notifier_at_most_once false 5 30 3 (fun _ => false) (fun _ => true) 1 ⟨0, 0⟩ 0).2
      (by decide)⟩

/-- Claim C6: when the debug flag is set, a busy verdict causes no outbound
publish call and no SNS client creation (`send_notification true` performs
only the `sys.exit()` of `close_program`, exit code 0), yet the loop reaches
exactly the same outcome as in the non-debug case. -/
theorem debug_skips_publish (SLEEP RD MAXP : Int) (p b : Nat → Bool)
    (fuel : Nat) (s : LoopState) (i : Nat) :
    send_notification true = [Action.exitProgram 0] ∧
    Action.createClient ∉ send_notification true ∧
    Action.publish ∉ send_notification true ∧
    (beginLoop true SLEEP RD MAXP p b fuel s i).2 =
      (beginLoop false SLEEP RD MAXP p b fuel s i).2 := by
  refine ⟨rfl, by decide, by decide, ?_⟩
  induction fuel generalizing s i with
  | zero =>
    rw [beginLoop, beginLoop]
  | succ n ih =>
    rw [beginLoop, beginLoop]
    rcases lt_or_le RD s.elapsed with hRD | hRD
    · simp only [if_pos hRD]
    · simp only [if_neg (not_lt.2 hRD)]
      rcases hiter : beginIter SLEEP MAXP (p i) (b i) s with s' | s' | s' <;>
        simp only [hiter] <;> try rfl
      exact ih s' (i + 1)

/-! ## Presence detection (`Idle_Usage_Checker.presence`) -/

/-- The `for _ in range(PRESENCE_CHECK_COUNT)` loop of
`Idle_Usage_Checker.presence`: `n` polls remain and `k` polls have already
been performed.  Poll `k` reads `markers k` (the value
`win32api.GetLastInputInfo()` returns on that poll) and compares it against
`self.last_action` (`ref`), which does not change during the loop unless a
difference is found.  Returns `(result, new last_action, polls performed)`. -/
def presenceAux (markers : Nat → Nat) (ref : Nat) : Nat → Nat → Bool × Nat × Nat
  | 0, k => (false, ref, k)
  | n + 1, k =>
    if markers k ≠ ref then (true, markers k, k + 1)
    else presenceAux markers ref n (k + 1)

/-- `Idle_Usage_Checker.presence`: up to `PRESENCE_CHECK_COUNT` polls,
starting with no polls performed. -/
def presence (PRESENCE_CHECK_COUNT : Nat) (markers : Nat → Nat) (ref : Nat) :
    Bool × Nat × Nat :=
  presenceAux markers ref PRESENCE_CHECK_COUNT 0

/-- If every remaining poll reads the reference value, the poll loop exhausts
all its polls and reports no presence, leaving the reference unchanged. -/
lemma presenceAux_all_eq (markers : Nat → Nat) (ref : Nat) :
    ∀ n k0, (∀ j, k0 ≤ j → j < k0 + n → markers j = ref) →
      presenceAux markers ref n k0 = (false, ref, k0 + n) := by
  intro n
  induction n with
  | zero => intro k0 _; rfl
  | succ m ih =>
    intro k0 hall
    have h0 : markers k0 = ref := hall k0 le_rfl (by omega)
    rw [presenceAux, if_neg (by simp [h0])]
    have hrec := ih (k0 + 1) (fun j hj1 hj2 => hall j (by omega) (by omega))
    have harith : k0 + 1 + m = k0 + (m + 1) := by omega
    rw [hrec, harith]

/-- If poll `k` is the first poll whose marker differs from the reference and
it is within range, the poll loop returns `true` with the new marker after
exactly `k + 1` polls. -/
lemma presenceAux_first_diff (markers : Nat → Nat) (ref : Nat) :
    ∀ n k0 k, k0 ≤ k → k < k0 + n → markers k ≠ ref →
      (∀ j, k0 ≤ j → j < k → markers j = ref) →
      presenceAux markers ref n k0 = (true, markers k, k + 1) := by
  intro n
  induction n with
  | zero => intro k0 k h1 h2 _ _; omega
  | succ m ih =>
    intro k0 k hk0 hlt hne hall
    rcases eq_or_lt_of_le hk0 with rfl | hlt0
    · rw [presenceAux, if_pos hne]
    · have h0 : markers k0 = ref := hall k0 le_rfl hlt0
      rw [presenceAux, if_neg (by simp [h0])]
      exact ih (k0 + 1) k (by omega) (by omega) hne (fun j hj1 hj2 => hall j (by omega) hj2)

/-- Claim C7: for every poll index `k` (0-based; poll `k+1` in the claim's
1-based numbering): if the freshly read activity marker on poll `k` differs
from the stored reference while all earlier polls read the reference,
`presence` returns `true` with the stored reference updated to the new
marker, having performed only `k + 1` polls (so polls `k+1 .. N-1` are never
taken); and if all `PRESENCE_CHECK_COUNT` polls read a marker equal to the
reference, `presence` returns `false` with the reference unchanged. -/
theorem presence_early_exit_policy (N : Nat) (markers : Nat → Nat) (ref : Nat) :
    (∀ k, k < N → markers k ≠ ref → (∀ j, j < k → markers j = ref) →
      presence N markers ref = (true, markers k, k + 1)) ∧
    ((∀ j, j < N → markers j = ref) →
      presence N markers ref = (false, ref, N)) := by
  constructor
  · intro k hk hne hall
    exact presenceAux_first_diff markers ref N 0 k (Nat.zero_le k) (by omega) hne
      (fun j _ hj => hall j hj)
  · intro hall
    have h := presenceAux_all_eq markers ref N 0 (fun j _ hj => hall j (by omega))
    simpa using h

/-- Claim C7 witness: scenario D of the spec, a marker change detected on
poll 2 of 5 (index 1), consuming only 2 polls. -/
theorem presence_early_exit_policy_witness :
    presence 5 (fun j => if j = 1 then 20 else 10) 10 = (true, 20, 2) := by
  have h := (presence_early_exit_policy 5 (fun j => if j = 1 then 20 else 10) 10).1 1
    (by norm_num) (by norm_num)
    (fun j hj => by
      have hj0 : j = 0 := by omega
      subst hj0
      norm_num)
  simpa using h

/-! ## Probe failure during a hysteresis check (claim C8)

`Idle_Usage_Checker.update_resources` wraps the `psutil` calls in no
`try`/`except`, and `resource_utilization` installs no handler around its
call to `update_resources` either, so a raised exception propagates out of
the sampling loop.  To settle the claim, the sample oracle is made fallible
(`none` models the transient failure) and exception propagation is modelled
with `Except`. -/

/-- `Idle_Usage_Checker.update_resources` over a fallible sampling call: the
method body is a plain assignment from the `psutil` calls, so when the call
raises (`none`), the exception leaves the method (`Except.error`). -/
def update_resources (sample : Option (ℚ × ℚ)) : Except Unit (ℚ × ℚ) :=
  match sample with
  | some s => Except.ok s
  | none => Except.error ()

/-- The sampling loop of `resource_utilization` over the fallible sample
stream: identical to `ruLoop`, except that a failing `update_resources` call
aborts the loop with the propagated exception. -/
def ruLoopE (cpuThreshold memoryThreshold : ℚ) (RESOURCE_CHECKS MAX_RESOURCE_CHECKS : Int)
    (samples : Nat → Option (ℚ × ℚ)) (resource_counter : Int) (total_checks : Nat) :
    Except Unit (Int × Nat) :=
  if resource_counter < RESOURCE_CHECKS ∧ -RESOURCE_CHECKS < resource_counter ∧
      (total_checks : Int) < MAX_RESOURCE_CHECKS then
    match update_resources (samples total_checks) with
    | Except.error e => Except.error e
    | Except.ok s =>
      ruLoopE cpuThreshold memoryThreshold RESOURCE_CHECKS MAX_RESOURCE_CHECKS samples
        (if busyVote cpuThreshold memoryThreshold s then resource_counter + 1
          else resource_counter - 1)
        (total_checks + 1)
  else
    Except.ok (resource_counter, total_checks)
termination_by (MAX_RESOURCE_CHECKS - total_checks).toNat
decreasing_by omega

/-- `Idle_Usage_Checker.resource_utilization` over the fallible sample
stream: exceptions from the loop propagate; otherwise the exit policy is as
in `resource_utilization`. -/
def resource_utilizationE (cpuThreshold memoryThreshold : ℚ)
    (RESOURCE_CHECKS MAX_RESOURCE_CHECKS : Int) (samples : Nat → Option (ℚ × ℚ)) :
    Except Unit Bool :=
  match ruLoopE cpuThreshold memoryThreshold RESOURCE_CHECKS MAX_RESOURCE_CHECKS samples 0 0 with
  | Except.error e => Except.error e
  | Except.ok (resource_counter, total_checks) =>
    Except.ok
      (if RESOURCE_CHECKS ≤ resource_counter then true
      else if resource_counter ≤ -RESOURCE_CHECKS then false
      else if MAX_RESOURCE_CHECKS ≤ (total_checks : Int) then false
      else false)

/-- Claim C8 counterexample: with `RESOURCE_CHECKS = 3`,
`MAX_RESOURCE_CHECKS = 10` and the resource-sampling call failing, the
failure is not counted as an idle vote (which would accumulate to the
confirmed-idle exit and return `ok false`): the exception propagates and
aborts the sampling loop instead. -/
theorem ru_probe_failure_aborts :
    resource_utilizationE 50 50 3 10 (fun _ => none) = Except.error () ∧
    resource_utilizationE 50 50 3 10 (fun _ => none) ≠ Except.ok false := by
  have h : ruLoopE 50 50 3 10 (fun _ => none) 0 0 = Except.error () := by
    rw [ruLoopE]
    norm_num [update_resources]
  refine ⟨?_, ?_⟩
  · rw [resource_utilizationE, h]
  · rw [resource_utilizationE, h]
    simp

/-- Claim C8 amended: if the OS resource-sampling call fails at a sample the
loop is about to take (its guard holds), the whole sampling loop of
`resource_utilization` aborts with the propagated exception; the failure is
not counted as an idle vote and the loop does not continue. -/
theorem ru_probe_failure_propagates (cpuT memT : ℚ) (RC MAX : Int)
    (samples : Nat → Option (ℚ × ℚ)) (c : Int) (t : Nat)
    (hfail : samples t = none)
    (hguard : c < RC ∧ -RC < c ∧ (t : Int) < MAX) :
    ruLoopE cpuT memT RC MAX samples c t = Except.error () := by
  rw [ruLoopE, if_pos hguard, hfail]
  rfl

/-- Claim C8 amended-claim witness: the failing first sample of the
counterexample configuration. -/
theorem ru_probe_failure_propagates_witness :
    (fun _ : Nat => (none : Option (ℚ × ℚ))) 0 = none ∧
    ((0 : Int) < 3 ∧ -(3 : Int) < (0 : Int) ∧ (((0 : Nat) : Int) < 10)) ∧
    ruLoopE 50 50 3 10 (fun _ => none) 0 0 = Except.error () :=
  ⟨rfl, by norm_num,
    ru_probe_failure_propagates 50 50 3 10 (fun _ => none) 0 0 rfl (by norm_num)⟩

/-! ## Command-line argument handling (`cmd_line_arg_handler` in `main`) -/

/-- Result of `cmd_line_arg_handler`: print usage and `sys.exit()` (exit code
0), print version and `sys.exit()` (exit code 0), or return normally with the
`debug` flag. -/
inductive CmdResult
  | exitHelp
  | exitVersion
  | proceed (debug : Bool)
  deriving DecidableEq, Repr

/-- The local `opts` of `cmd_line_arg_handler`:
`[opt for opt in sys.argv[1:] if opt.startswith("-")]`.  Python's
`opt.startswith("-")` holds exactly when the first character of `opt` is
`-`, which is expressed here on the string's character list. -/
def cmdOpts (argv_tail : List String) : List String :=
  argv_tail.filter (fun o => o.data.take 1 == ['-'])

/-- `cmd_line_arg_handler`: if any `-`-prefixed options are present, test
`-h`/`--help` first (print usage, `sys.exit()`), then `-v`/`--version`
(print version, `sys.exit()`), then `-d`/`--debug` (set the debug flag);
`sys.exit` raises, so the later tests are unreachable once an earlier one
fires. -/
def cmd_line_arg_handler (argv_tail : List String) : CmdResult :=
  if cmdOpts argv_tail ≠ [] then
    if "-h" ∈ cmdOpts argv_tail ∨ "--help" ∈ cmdOpts argv_tail then
      CmdResult.exitHelp
    else if "-v" ∈ cmdOpts argv_tail ∨ "--version" ∈ cmdOpts argv_tail then
      CmdResult.exitVersion
    else
      CmdResult.proceed
        (decide ("-d" ∈ cmdOpts argv_tail) || decide ("--debug" ∈ cmdOpts argv_tail))
  else
    CmdResult.proceed false

/-- Claim C10: the help flag takes precedence: for every argument list
containing `-h` or `--help`, `cmd_line_arg_handler` prints usage and exits
(code 0) before the version or debug flags are examined, so version output is
never produced and debug mode is never enabled in the same run; likewise
`-v`/`--version` exits before `-d` is examined. -/
theorem cmd_line_help_precedence (argv_tail : List String) :
    (("-h" ∈ argv_tail ∨ "--help" ∈ argv_tail) →
      cmd_line_arg_handler argv_tail = CmdResult.exitHelp) ∧
    ("-h" ∉ argv_tail → "--help" ∉ argv_tail →
      ("-v" ∈ argv_tail ∨ "--version" ∈ argv_tail) →
      cmd_line_arg_handler argv_tail = CmdResult.exitVersion) := by
  constructor
  · intro hmem
    have hopts : "-h" ∈ cmdOpts argv_tail ∨ "--help" ∈ cmdOpts argv_tail := by
      rcases hmem with h | h
      · exact Or.inl (List.mem_filter.2 ⟨h, by decide⟩)
      · exact Or.inr (List.mem_filter.2 ⟨h, by decide⟩)
    have hne : cmdOpts argv_tail ≠ [] := by
      rcases hopts with h | h <;> exact fun hnil => by simp [hnil] at h
    rw [cmd_line_arg_handler, if_pos hne, if_pos hopts]
  · intro h1 h2 hmem
    have hv : "-v" ∈ cmdOpts argv_tail ∨ "--version" ∈ cmdOpts argv_tail := by
      rcases hmem with h | h
      · exact Or.inl (List.mem_filter.2 ⟨h, by decide⟩)
      · exact Or.inr (List.mem_filter.2 ⟨h, by decide⟩)
    have hne : cmdOpts argv_tail ≠ [] := by
      rcases hv with h | h <;> exact fun hnil => by simp [hnil] at h
    have hno : ¬("-h" ∈ cmdOpts argv_tail ∨ "--help" ∈ cmdOpts argv_tail) := by
      rintro (h | h)
      · exact h1 (List.mem_filter.1 h).1
      · exact h2 (List.mem_filter.1 h).1
    rw [cmd_line_arg_handler, if_pos hne, if_neg hno, if_pos hv]

/-- Claim C10 witness: an argument list carrying all three flags resolves to
the help exit. -/
theorem cmd_line_help_precedence_witness :
    cmd_line_arg_handler ["-h", "-v", "-d"] = CmdResult.exitHelp :=
  (cmd_line_help_precedence ["-h", "-v", "-d"]).1
    (Or.inl (List.mem_cons_self _ _))

end IdleUsageChecker
